import Mathlib

/-!
Verification development for the pyUANamespace node-set core
(src/tools/pyUANamespace/nodeset.py and nodes.py).

The two Python source files are shallowly embedded below.  Python objects
are modelled arena-style: a node is referenced through the canonical string
form of its identifier, never through an object handle, and the NodeSet
registry resolves identifiers to nodes.  Python dicts are modelled as
insertion-ordered association lists with overwrite-on-assignment, Python
lists as Lean lists.

The classes NodeId, QualifiedName and LocalizedText live in datatypes.py,
which is not part of the sources; NodeId is therefore modelled from the
specification (identifier grammar of spec section 6, string-form based
equality and registry keying of spec section 3).
-/

namespace PyUA

/-- Substring containment on character lists (`needle` occurs inside `hay`). -/
def listContains (needle : List Char) : List Char → Bool
  | [] => needle.isEmpty
  | c :: rest => needle.isPrefixOf (c :: rest) || listContains needle rest

/-- Python `needle in hay` on strings: substring containment. -/
def pyIn (needle hay : String) : Bool :=
  listContains needle.toList hay.toList

/-- Python `s.lower()` (ASCII, which is all the sources use). -/
def pyLower (s : String) : String :=
  String.mk (s.data.map Char.toLower)

/-- Python `s[:n] == pre` as used at nodeset.py line 149. -/
def pyStartsWith (s pre : String) : Bool :=
  pre.data.isPrefixOf s.data

/-- Python `s[n:]`. -/
def pyDrop (s : String) (n : Nat) : String :=
  String.mk (s.data.drop n)

/-- `int(s)` on a digit string: `Option.none` when not all digits. -/
def charsToNat? (l : List Char) : Option Nat :=
  if l.isEmpty || !(l.all Char.isDigit) then Option.none
  else some (l.foldl (fun acc c => acc * 10 + (c.toNat - 48)) 0)

/-- Python `list.index(x)`: index of the first occurrence (callers only use
it on members, so the out-of-range case returns the length). -/
def pyIndex (t : List String) (u : String) : Nat :=
  match t with
  | [] => 0
  | x :: xs => if x = u then 0 else pyIndex xs u + 1

/-- Modelled from the spec: `NodeId` lives in datatypes.py which is not
among the sources.  Spec section 3: an identifier is a namespace index plus
a local value, equal iff both match under canonical string form; section 6
gives the textual grammar `ns=<int>;<kind>=<value>` with `ns=` omitted for
namespace 0.  The local value keeps its textual form (`i=5`, `s=foo`, ...);
a string that does not follow the grammar (an alias such as `Boolean`) is
kept verbatim with namespace 0, so that its string form round-trips and can
be matched against the alias table, as spec section 4.2 requires. -/
structure NodeId where
  ns : Nat
  val : String
deriving DecidableEq

/-- Modelled from the spec: canonical string form of an identifier
(spec section 6; `ns=` omitted for namespace 0). -/
def NodeId.str (n : NodeId) : String :=
  if n.ns = 0 then n.val else "ns=" ++ toString n.ns ++ ";" ++ n.val

/-- Modelled from the spec: `NodeId(idstring)` parsing.  A leading `ns=<int>;`
sets the namespace index; anything else is the local value kept verbatim
(spec section 6: omitted `ns=` implies namespace 0). -/
def NodeId.parse (s : String) : NodeId :=
  match s.data with
  | 'n' :: 's' :: '=' :: rest =>
    let nsStr := rest.takeWhile (fun c => !(c = ';'))
    let after := rest.dropWhile (fun c => !(c = ';'))
    ⟨(charsToNat? nsStr).getD 0, String.mk (after.drop 1)⟩
  | _ => ⟨0, s⟩

/-- A value held in a Reference field: a parsed identifier, a cleartext
alias string kept verbatim (nodes.py line 113), or Python `None`
(the initial value of `reftype` in `parseXMLReferences`). -/
inductive RefVal where
  | nd (id : NodeId)
  | lit (s : String)
  | nil
deriving DecidableEq

/-- Python `str(...)` of a reference field value (`str(None)` is `"None"`). -/
def RefVal.pyStr : RefVal → String
  | RefVal.nd i => i.str
  | RefVal.lit s => s
  | RefVal.nil => "None"

/-- nodes.py `Reference.__init__(self, source, referenceType, target,
isForward=True)`: field order exactly as the constructor parameters. -/
structure Reference where
  source : RefVal
  referenceType : RefVal
  target : RefVal
  isForward : Bool
deriving DecidableEq

/-- The constructor call `Reference(a, b, c, d)` with positional arguments,
mirroring `__init__(self, source, referenceType, target, isForward)`. -/
def Reference.init (a b c : RefVal) (d : Bool) : Reference :=
  ⟨a, b, c, d⟩

/-- nodes.py `Reference.__str__`: source, then `<` when inverse, then
`--[referenceType]--`, then `>` when forward, then target. -/
def Reference.pyStr (r : Reference) : String :=
  r.source.pyStr
    ++ (if r.isForward then "" else "<")
    ++ "--[" ++ r.referenceType.pyStr ++ "]--"
    ++ (if r.isForward then ">" else "")
    ++ r.target.pyStr

/-- One XML element, as minidom hands it over: tag name, attributes in
document order, the text content of its first child when that child is a
text node (empty when there is none), and its element children.  Text and
comment children other than the leading text content are dropped, matching
the `nodeType != ELEMENT_NODE` skips in the source. -/
inductive XmlEl where
  | mk (tag : String) (attrs : List (String × String)) (text : String)
       (kids : List XmlEl)

def XmlEl.tag : XmlEl → String
  | XmlEl.mk t _ _ _ => t

def XmlEl.attrs : XmlEl → List (String × String)
  | XmlEl.mk _ a _ _ => a

def XmlEl.text : XmlEl → String
  | XmlEl.mk _ _ s _ => s

def XmlEl.kids : XmlEl → List XmlEl
  | XmlEl.mk _ _ _ k => k

/-- `xmlelement.hasAttribute(name)` / `getAttribute(name)` combined. -/
def XmlEl.getAttr (x : XmlEl) (name : String) : Option String :=
  x.attrs.lookup name

/-- Python truthiness of `x.firstChild`: the element has a first child iff
it has text content or element children. -/
def XmlEl.hasFirstChild (x : XmlEl) : Bool :=
  !(x.text = "" && x.kids.isEmpty)

/-- nodes.py `Node`: base attributes (lines 80-90).  The reference sets are
Python 2 `sets.Set` objects; since `Reference` defines `__hash__` but no
`__eq__`, set membership falls back to object identity, and every
`Reference(...)` constructor call yields a fresh object identical to no
existing member, so `Set.add` of a freshly constructed reference always
inserts.  The sets are therefore modelled as lists to which `add`
appends. -/
structure Node where
  id : NodeId
  nodeClass : Nat
  browseName : String
  displayName : String
  description : String
  writeMask : Nat
  userWriteMask : Nat
  references : List Reference
  inverseReferences : List Reference
deriving DecidableEq

def Node.empty (cls : Nat) : Node :=
  ⟨⟨0, ""⟩, cls, "", "", "", 0, 0, [], []⟩

/-- `Set.add` on a node reference set for a freshly constructed Reference:
always inserts (see the comment on `Node`). -/
def pySetAddFresh (s : List Reference) (r : Reference) : List Reference :=
  s ++ [r]

/-- The attribute loop of nodes.py `parseXMLReferences` (lines 108-115):
`reftype` starts as `None`, a `ReferenceType` attribute is parsed as a
NodeId when it contains `=` and kept as a cleartext alias string otherwise;
`forward` starts `True` and an `IsForward` attribute makes it `False` iff
its lowercased value contains `"false"`. -/
def parseRefAttrStep (acc : RefVal × Bool) (p : String × String) : RefVal × Bool :=
  if p.1 = "ReferenceType" then
    (if pyIn "=" p.2 then RefVal.nd (NodeId.parse p.2) else RefVal.lit p.2, acc.2)
  else if p.1 = "IsForward" then
    (acc.1, !(pyIn "false" (pyLower p.2)))
  else acc

/-- nodes.py `Node.parseXMLReferences` (lines 101-119).  For each element
child: the target identifier is parsed from the text content, the attribute
loop yields `reftype` and `forward`, and the reference is constructed by
the call `Reference(self.id, target, reftype, forward)` — positionally
against `__init__(self, source, referenceType, target, isForward)`, so the
text-content identifier lands in the `referenceType` field and the
`ReferenceType` attribute value lands in the `target` field.  Forward
references are added to `references`, the rest to `inverseReferences`. -/
def Node.parseXMLReferences (n : Node) (x : XmlEl) : Node :=
  x.kids.foldl (fun nd ref =>
    let target := RefVal.nd (NodeId.parse ref.text)
    let rf := ref.attrs.foldl parseRefAttrStep (RefVal.nil, true)
    let newref := Reference.init (RefVal.nd nd.id) target rf.1 rf.2
    if rf.2 then
      { nd with references := pySetAddFresh nd.references newref }
    else
      { nd with inverseReferences := pySetAddFresh nd.inverseReferences newref }) n

/-- The id-attribute loop of nodes.py `Node.parseXML` (lines 125-127): each
of the three case variants of the attribute name is tried in order, a
present one overwriting the id. -/
def Node.parseXMLid (n : Node) (x : XmlEl) : Node :=
  ["NodeId", "NodeID", "nodeid"].foldl (fun nd idname =>
    match x.getAttr idname with
    | some av => { nd with id := NodeId.parse av }
    | Option.none => nd) n

/-- The base attribute loop of nodes.py `Node.parseXML` (lines 130-142).
`int(av)` is modelled as `toNat?.getD 0`; the claims do not exercise the
numeric fields.  The `EventNotifier` branch sets a variant attribute and is
dropped here (base nodes do not carry it). -/
def Node.parseXMLattrStep (nd : Node) (p : String × String) : Node :=
  if p.1 = "BrowseName" then { nd with browseName := p.2 }
  else if p.1 = "DisplayName" then { nd with displayName := p.2 }
  else if p.1 = "Description" then { nd with description := p.2 }
  else if p.1 = "WriteMask" then { nd with writeMask := (charsToNat? p.2.data).getD 0 }
  else if p.1 = "UserWriteMask" then { nd with userWriteMask := (charsToNat? p.2.data).getD 0 }
  else nd

/-- The child-element loop of nodes.py `Node.parseXML` (lines 144-159):
guarded by `x.firstChild`, equally named child elements override the base
attributes (`LocalizedText(x)` of the missing datatypes.py is modelled from
the spec as the text content), and a `References` child is delegated to
`parseXMLReferences`. -/
def Node.parseXMLchildStep (nd : Node) (x : XmlEl) : Node :=
  if x.hasFirstChild then
    let nd1 :=
      if x.tag = "BrowseName" then { nd with browseName := x.text }
      else if x.tag = "DisplayName" then { nd with displayName := x.text }
      else if x.tag = "Description" then { nd with description := x.text }
      else if x.tag = "WriteMask" then { nd with writeMask := (charsToNat? x.text.data).getD 0 }
      else if x.tag = "UserWriteMask" then { nd with userWriteMask := (charsToNat? x.text.data).getD 0 }
      else nd
    if x.tag = "References" then nd1.parseXMLReferences x else nd1
  else nd

/-- nodes.py `Node.parseXML` (lines 121-159): id attributes, then the base
attribute loop, then the child-element loop. -/
def Node.parseXML (n : Node) (x : XmlEl) : Node :=
  let n1 := n.parseXMLid x
  let n2 := x.attrs.foldl Node.parseXMLattrStep n1
  x.kids.foldl Node.parseXMLchildStep n2

/-- The idiom `"false" not in av.lower()` used by every boolean attribute
in nodes.py. -/
def pyBoolAttr (av : String) : Bool :=
  !(pyIn "false" (pyLower av))

/-- Variant payload of nodes.py `ReferenceTypeNode` (lines 191-197). -/
structure ReferenceTypeFields where
  isAbstract : Bool
  symmetric : Bool
  inverseName : String
deriving DecidableEq

def referenceTypeInit : ReferenceTypeFields := ⟨false, false, ""⟩

/-- The attribute loop of nodes.py `ReferenceTypeNode.parseXML`
(lines 201-207). -/
def referenceTypeAttrStep (f : ReferenceTypeFields) (p : String × String) :
    ReferenceTypeFields :=
  if p.1 = "Symmetric" then { f with symmetric := pyBoolAttr p.2 }
  else if p.1 = "InverseName" then { f with inverseName := p.2 }
  else if p.1 = "IsAbstract" then { f with isAbstract := pyBoolAttr p.2 }
  else f

def referenceTypeParseAttrs (f : ReferenceTypeFields)
    (attrs : List (String × String)) : ReferenceTypeFields :=
  attrs.foldl referenceTypeAttrStep f

/-- Variant payload of nodes.py `MethodNode` (lines 279-285). -/
structure MethodFields where
  executable : Bool
  userExecutable : Bool
  methodDeclaration : Option String
deriving DecidableEq

def methodInit : MethodFields := ⟨true, true, Option.none⟩

/-- The attribute loop of nodes.py `MethodNode.parseXML` (lines 289-295);
three independent `if` tests. -/
def methodAttrStep (f : MethodFields) (p : String × String) : MethodFields :=
  let f1 := if p.1 = "Executable" then { f with executable := pyBoolAttr p.2 } else f
  let f2 := if p.1 = "UserExecutable" then { f1 with userExecutable := pyBoolAttr p.2 } else f1
  if p.1 = "MethodDeclarationId" then { f2 with methodDeclaration := some p.2 } else f2

def methodParseAttrs (f : MethodFields) (attrs : List (String × String)) :
    MethodFields :=
  attrs.foldl methodAttrStep f

/-- The attribute loop of nodes.py `ObjectTypeNode.parseXML`
(lines 303-307): only `IsAbstract`. -/
def objectTypeAttrStep (isAbstract : Bool) (p : String × String) : Bool :=
  if p.1 = "IsAbstract" then pyBoolAttr p.2 else isAbstract

def objectTypeParseAttrs (isAbstract : Bool) (attrs : List (String × String)) :
    Bool :=
  attrs.foldl objectTypeAttrStep isAbstract

/-- The attribute loop of nodes.py `DataTypeNode.parseXML`
(lines 315-319): only `IsAbstract`. -/
def dataTypeAttrStep (isAbstract : Bool) (p : String × String) : Bool :=
  if p.1 = "IsAbstract" then pyBoolAttr p.2 else isAbstract

def dataTypeParseAttrs (isAbstract : Bool) (attrs : List (String × String)) :
    Bool :=
  attrs.foldl dataTypeAttrStep isAbstract

/-- Variant payload of nodes.py `ViewNode` (lines 321-326).  Note that
`__init__` writes `self.containsNoLoops == False` (a comparison, not an
assignment), so the fields only exist once the attribute loop sets them;
the model tracks them as `Option Bool` with `Option.none` for the unset
state. -/
structure ViewFields where
  containsNoLoops : Option Bool
  eventNotifier : Option Bool
deriving DecidableEq

def viewInit : ViewFields := ⟨Option.none, Option.none⟩

/-- The attribute loop of nodes.py `ViewNode.parseXML` (lines 330-334);
attribute names exactly as in the source (`ContainsNoLoops`,
`eventNotifier`). -/
def viewAttrStep (f : ViewFields) (p : String × String) : ViewFields :=
  let f1 := if p.1 = "ContainsNoLoops" then { f with containsNoLoops := some (pyBoolAttr p.2) } else f
  if p.1 = "eventNotifier" then { f1 with eventNotifier := some (pyBoolAttr p.2) } else f1

def viewParseAttrs (f : ViewFields) (attrs : List (String × String)) :
    ViewFields :=
  attrs.foldl viewAttrStep f

/-- A Python dict keyed by strings: insertion-ordered association list.
Assignment `d[k] = v` overwrites in place when the key is present and
appends otherwise. -/
def dictInsert (d : List (String × Node)) (k : String) (v : Node) :
    List (String × Node) :=
  if (d.lookup k).isSome then
    d.map (fun p => if p.1 = k then (k, v) else p)
  else d ++ [(k, v)]

/-- nodeset.py `NodeSet` state (lines 45-50): the node list, the
`nodeids` dict keyed by `str(node.id)`, the alias dict, and the combined
namespace table starting at the standard namespace. -/
structure NodeSet where
  nodes : List Node
  name : String
  nodeids : List (String × Node)
  aliases : List (String × String)
  namespaceIdentifiers : List String
deriving DecidableEq

def NodeSet.init (name : String) : NodeSet :=
  ⟨[], name, [], [], ["http://opcfoundation.org/UA/"]⟩

/-- nodeset.py `NodeSet.addNamespace` (lines 52-54). -/
def addNamespaceL (t : List String) (nsURL : String) : List String :=
  if nsURL ∈ t then t else t ++ [nsURL]

/-- The namespace loop of nodeset.py `addNodeSet` (lines 244-246): the same
membership-guarded append as `addNamespace`, once per declared URI. -/
def ingestNamespaces (t : List String) (uris : List String) : List String :=
  uris.foldl addNamespaceL t

/-- nodeset.py `NodeSet.createNamespaceMapping` (lines 56-62): position `i`
holds the combined index of the URI at local index `i`, found with
`list.index` (first occurrence). -/
def createNamespaceMappingL (t : List String) (origNamespaces : List String) :
    List Nat :=
  origNamespaces.map (fun name => pyIndex t name)

/-- One child of an `Aliases` element, for nodeset.py `buildAliasList`
(lines 64-86): insert when the alias key is absent; otherwise keep the
current binding (a differing redefinition is only logged). -/
def buildAliasStep (al : List (String × String)) (x : XmlEl) :
    List (String × String) :=
  match x.getAttr "Alias" with
  | some aliasst =>
      if (al.lookup aliasst).isSome then al else al ++ [(aliasst, x.text)]
  | Option.none => al

/-- nodeset.py `NodeSet.buildAliasList`: a non-`Aliases` element is
rejected with a log message and no mutation. -/
def NodeSet.buildAliasList (ns : NodeSet) (x : XmlEl) : NodeSet :=
  if x.tag = "Aliases" then
    { ns with aliases := x.kids.foldl buildAliasStep ns.aliases }
  else ns

/-- The per-field alias substitution of nodeset.py `replaceAliases`
(lines 88-104): when the string form of the value is a known alias key, the
value becomes `NodeId(aliases[...])`. -/
def NodeSet.resolveRefVal (ns : NodeSet) (v : RefVal) : RefVal :=
  match ns.aliases.lookup v.pyStr with
  | some a => RefVal.nd (NodeId.parse a)
  | Option.none => v

def NodeSet.resolveReference (ns : NodeSet) (r : Reference) : Reference :=
  { r with
    source := ns.resolveRefVal r.source
    target := ns.resolveRefVal r.target
    referenceType := ns.resolveRefVal r.referenceType }

/-- nodeset.py `NodeSet.replaceAliases` (lines 88-104): the node id
(substituted when its string form is an alias key), then source, target and
referenceType of every forward and inverse reference. -/
def NodeSet.replaceAliases (ns : NodeSet) (nd : Node) : Node :=
  let id1 := match ns.aliases.lookup nd.id.str with
    | some a => NodeId.parse a
    | Option.none => nd.id
  { nd with
    id := id1
    references := nd.references.map (fun r => ns.resolveReference r)
    inverseReferences := nd.inverseReferences.map (fun r => ns.resolveReference r) }

/-- nodeset.py `NodeSet.getNodeByIDString` (lines 109-110): first node of
the list whose id string form matches. -/
def NodeSet.getNodeByIDString (ns : NodeSet) (idstring : String) : Option Node :=
  ns.nodes.find? (fun n => idstring = n.id.str)

/-- nodeset.py `NodeSet.getNodeByBrowseName` (lines 112-113). -/
def NodeSet.getNodeByBrowseName (ns : NodeSet) (idstring : String) : Option Node :=
  ns.nodes.find? (fun n => idstring = n.browseName)

/-- The tag-name dispatch of nodeset.py `createNode` (lines 148-174) as the
node-class discriminant; `Option.none` for unrecognized tags (the element
yields no node). -/
def nodeClassOf (ndtype : String) : Option Nat :=
  if ndtype = "variable" then some 2
  else if ndtype = "object" then some 1
  else if ndtype = "method" then some 4
  else if ndtype = "objecttype" then some 5
  else if ndtype = "variabletype" then some 6
  else if ndtype = "methodtype" then some 4
  else if ndtype = "datatype" then some 9
  else if ndtype = "referencetype" then some 7
  else Option.none

/-- nodeset.py `NodeSet.createNode` (lines 115-190).  The tag name is
lowercased and a leading `ua` stripped; an `aliases` element feeds
`buildAliasList`; an unrecognized tag yields no node.  Otherwise the node
is parsed, then:
* `node.id == None` — `Node.__init__` always sets `id = NodeId()` and
  NodeId equality is string-form based (spec section 3), so the test
  compares `str(node.id)` against `str(None) = "None"`;
* `node.id in self.nodeids` — dict membership with a NodeId key against
  string keys, which under string-form hashing and equality matches iff
  `str(node.id)` is a key; note this runs BEFORE alias substitution and
  namespace rewriting;
* aliases are substituted, `node.id.ns` is rewritten through `nsMapping`
  (`KeyError` on a local index outside the mapping is modelled by totality
  of the function argument), and the node is appended to `nodes` while
  `nodeids[str(node.id)]` is assigned (overwriting silently when the
  rewritten key already exists).
Both raises happen before any mutation of the NodeSet, so the error case
returns the set unchanged. -/
def NodeSet.createNode (ns : NodeSet) (x : XmlEl) (nsMapping : Nat → Nat) :
    Except String NodeSet :=
  let ndtype0 := pyLower x.tag
  let ndtype := if pyStartsWith ndtype0 "ua" then pyDrop ndtype0 2 else ndtype0
  if ndtype = "aliases" then Except.ok (ns.buildAliasList x)
  else
    match nodeClassOf ndtype with
    | Option.none => Except.ok ns
    | some cls =>
      let node := (Node.empty cls).parseXML x
      if node.id.str = "None" then
        Except.error "Error: XMLElement has no id"
      else if (ns.nodeids.lookup node.id.str).isSome then
        Except.error ("XMLElement with duplicate ID " ++ node.id.str)
      else
        let node := ns.replaceAliases node
        let node := { node with id := ⟨nsMapping node.id.ns, node.id.val⟩ }
        Except.ok { ns with
          nodes := ns.nodes ++ [node]
          nodeids := dictInsert ns.nodeids node.id.str node }

/-- nodeset.py `NodeSet.removeNodeById` (lines 192-201).  The node is
located by id string; a missing node returns unchanged.  Otherwise
`self.nodes.remove(nd)` removes the first list element equal to the node,
and the loop over `nd.inverseReferences` executes
`src.removeReferenceToNode(nd)` — a method defined on no class of the
sources (nodes.py `Node` has no such attribute), so the first iteration
raises `AttributeError`.  The returned flag is true when that exception is
raised; the node-list removal has already happened by then, and
`self.nodeids` is never touched on any path. -/
def NodeSet.removeNodeById (ns : NodeSet) (nodeId : String) : NodeSet × Bool :=
  match ns.getNodeByIDString nodeId with
  | Option.none => (ns, false)
  | some nd =>
    ({ ns with nodes := ns.nodes.erase nd }, !nd.inverseReferences.isEmpty)

/-- The children loop of nodeset.py `addNodeSet` (lines 250-251): each
top-level child element goes through `createNode`; an exception aborts the
ingestion at that child. -/
def NodeSet.createNodes (ns : NodeSet) (xs : List XmlEl) (nsMapping : Nat → Nat) :
    Except String NodeSet :=
  match xs with
  | [] => Except.ok ns
  | x :: rest =>
    match ns.createNode x nsMapping with
    | Except.ok ns1 => ns1.createNodes rest nsMapping
    | Except.error e => Except.error e

/-!
Dependency linearization (nodeset.py lines 283-333).

Modelled from the spec: by the time `reorderNodesMinDependencies` runs,
reference fields have been linked to node objects by the pointer-linking
phase that the docstrings of nodeset.py (lines 67 and 120) refer to but
that is not among the sources.  Following spec section 9, the linked state
is modelled arena-style: a reference field "is a Node" exactly when its
string form resolves in the registry (`getNodeByIDString`), and membership
of a linked node in a list of nodes (Python object identity, since `Node`
defines no `__eq__`) is comparison of registry identifiers.  The source
mixes attribute access and call syntax on the same reference fields
(`ref.referenceType()` at lines 287 and 308 versus `ref.referenceType` at
line 324, `ref.isForward` at line 308 versus `ref.isForward()` at lines
287 and 324, `ref.target()` at line 286 versus `ref.target` elsewhere);
on linked attributes the call forms are read uniformly as attribute
accesses, which is what spec section 4.5 describes.
-/

/-- `isinstance(ref.target, Node)` on the linked graph: the target resolves
in the registry. -/
def NodeSet.resolveNode (ns : NodeSet) (v : RefVal) : Option Node :=
  ns.getNodeByIDString v.pyStr

/-- `ref.referenceType in relevant_types` on the linked graph: the resolved
reference-type node is a member (object identity = registry id) of the
relevant list. -/
def refTypeIn (ns : NodeSet) (relevant : List Node) (v : RefVal) : Bool :=
  match ns.resolveNode v with
  | some rt => relevant.any (fun m => m.id.str = rt.id.str)
  | Option.none => false

/-- nodeset.py `NodeSet.getSubTypesOf2` (lines 283-289): the node itself,
followed by the recursive closure along forward references whose resolved
reference-type node has displayName `"HasSubtype"`.  The Python recursion
has no cycle protection (a subtype cycle overflows the stack); the fuel
argument makes the model total, and every use below supplies fuel larger
than the recursion depth actually reached. -/
def NodeSet.getSubTypesOf2 (ns : NodeSet) : Nat → Node → List Node
  | 0, node => [node]
  | fuel + 1, node =>
    node :: node.references.foldl (fun acc ref =>
      match ns.resolveNode ref.target with
      | some tgt =>
        if (match ns.resolveNode ref.referenceType with
            | some rt => rt.displayName = "HasSubtype"
            | Option.none => false) && ref.isForward
        then acc ++ ns.getSubTypesOf2 fuel tgt
        else acc
      | Option.none => acc) []

/-- The relevant reference types of nodeset.py lines 295-300: the subtype
closures of the nodes found by browse name `"HierarchicalReferences"` and
`"HasComponent"`, concatenated in that order.  When either browse-name
lookup returns `None`, Python dereferences `None.references` and raises
`AttributeError`; that is the `Option.none` case. -/
def NodeSet.relevantTypes (ns : NodeSet) : Option (List Node) :=
  match ns.getNodeByBrowseName "HierarchicalReferences",
        ns.getNodeByBrowseName "HasComponent" with
  | some hr, some hc =>
    some (ns.getSubTypesOf2 (ns.nodes.length + 1) hr
          ++ ns.getSubTypesOf2 (ns.nodes.length + 1) hc)
  | _, _ => Option.none

/-- `in_degree[k]` lookup (the key is always present: it is a registry
node). -/
def degGet (d : List (String × Int)) (k : String) : Int :=
  (d.lookup k).getD 0

/-- `in_degree[k] += delta`. -/
def degAdd (d : List (String × Int)) (k : String) (delta : Int) :
    List (String × Int) :=
  d.map (fun p => if p.1 = k then (p.1, p.2 + delta) else p)

/-- The in-degree computation of nodeset.py lines 302-309: zero for every
node, then for each node NOT in `printedExternally`, each forward reference
with a linked target and a relevant reference type bumps the target.
`printedExternally` holds nodes (compared by identity), modelled as their
registry id strings. -/
def NodeSet.inDegreeInit (ns : NodeSet) (relevant : List Node)
    (printedExternally : List String) : List (String × Int) :=
  let d0 := ns.nodes.map (fun u => (u.id.str, (0 : Int)))
  ns.nodes.foldl (fun d u =>
    if u.id.str ∈ printedExternally then d
    else u.references.foldl (fun d ref =>
      match ns.resolveNode ref.target with
      | some tgt =>
        if refTypeIn ns relevant ref.referenceType && ref.isForward then
          degAdd d tgt.id.str 1
        else d
      | Option.none => d) d) d0

/-- The while loop of nodeset.py lines 319-327.  The deque receives new
zero-in-degree nodes with `appendleft` and is emptied with `pop` from the
other end, i.e. first-in-first-out; the model appends at the tail and pops
the head.  Note the loop body filters on relevant type and forwardness but
NOT on `printedExternally`, unlike the in-degree computation.  Fuel makes
the recursion structural; each iteration consumes one queue entry and every
node is enqueued at most once, so fuel `|nodes| + 1` suffices and the
zero-fuel branch is never reached from `reorderNodesMinDependencies`. -/
def kahnLoop (ns : NodeSet) (relevant : List Node) :
    Nat → List (String × Int) → List Node → List Node → List Node
  | 0, _, _, L => L
  | fuel + 1, deg, q, L =>
    match q with
    | [] => L
    | u :: qrest =>
      let step := u.references.foldl (fun acc ref =>
        match ns.resolveNode ref.target with
        | some tgt =>
          if refTypeIn ns relevant ref.referenceType && ref.isForward then
            let d1 := degAdd acc.1 tgt.id.str (-1)
            if degGet d1 tgt.id.str = 0 then (d1, acc.2 ++ [tgt])
            else (d1, acc.2)
          else acc
        | Option.none => acc) (deg, qrest)
      kahnLoop ns relevant fuel step.1 step.2 (L ++ [u])

/-- nodeset.py `NodeSet.reorderNodesMinDependencies` (lines 291-333).
Returns `Option.none` when a browse-name root is missing (fatal
`AttributeError` in Python); otherwise the reordered NodeSet together with
a flag that is true exactly when the cycle branch of lines 330-332 ran
(`logger.error("Node graph is circular ...")`), in which case the output is
the partial order followed by the unemitted nodes in original relative
order. -/
def NodeSet.reorderNodesMinDependencies (ns : NodeSet)
    (printedExternally : List String) : Option (NodeSet × Bool) :=
  match ns.relevantTypes with
  | Option.none => Option.none
  | some relevant =>
    let deg0 := ns.inDegreeInit relevant printedExternally
    let q0 := ns.nodes.filter (fun u => degGet deg0 u.id.str = 0)
    let totalRefs := (ns.nodes.map (fun n => n.references.length)).sum
    let emitted := kahnLoop ns relevant (ns.nodes.length + totalRefs + 1) deg0 q0 []
    if emitted.length = ns.nodes.length then
      some ({ ns with nodes := emitted }, false)
    else
      let rest := ns.nodes.filter (fun x => !(emitted.any (fun y => y.id.str = x.id.str)))
      some ({ ns with nodes := emitted ++ rest }, true)

/-- A relevant forward edge from `a` to `b` as counted by the in-degree
computation: some reference of `a` has a linked target resolving to `b`, a
reference type resolving into the relevant list, and is forward. -/
def NodeSet.relevantForwardEdge (ns : NodeSet) (relevant : List Node)
    (a b : Node) : Bool :=
  a.references.any (fun ref =>
    (match ns.resolveNode ref.target with
     | some tgt => tgt.id.str = b.id.str
     | Option.none => false)
    && refTypeIn ns relevant ref.referenceType && ref.isForward)

/-!
Spec-side definitions used to state the claims.
-/

/-- The agreement invariant of spec section 3 between the identifier index
and the node list: every listed node is indexed under its canonical id
string, and every indexed node is in the list. -/
def nodesetAgrees (ns : NodeSet) : Bool :=
  ns.nodes.all (fun n => ns.nodeids.lookup n.id.str == some n)
    && ns.nodeids.all (fun p => ns.nodes.contains p.2)

/-- Modelled from the spec: reference-set insertion deduplicating by the
canonicalized string form, as spec section 3 describes it ("two references
are interchangeable (set-deduplicated) iff their canonicalized string forms
match").  Used only to contrast with the behaviour of the source
(`pySetAddFresh`). -/
def addRefDedupByStr (s : List Reference) (r : Reference) : List Reference :=
  if s.any (fun x => x.pyStr == r.pyStr) then s else s ++ [r]

/-!
Concrete scenarios.  References below are in the linked state described at
the linearization section above: fields hold registry identifiers.
-/

/-- Reference-type node with browse name `HierarchicalReferences`. -/
def typeHRNode : Node :=
  ⟨⟨0, "i=33"⟩, 7, "HierarchicalReferences", "HierarchicalReferences", "", 0, 0, [], []⟩

/-- Reference-type node with browse name `HasComponent` (id `i=47`). -/
def typeHCNode : Node :=
  ⟨⟨0, "i=47"⟩, 7, "HasComponent", "HasComponent", "", 0, 0, [], []⟩

/-- A linked forward reference of type HasComponent. -/
def hcRef (src tgt : NodeId) : Reference :=
  ⟨RefVal.nd src, RefVal.nd ⟨0, "i=47"⟩, RefVal.nd tgt, true⟩

/-- C1 scenario: nodes C, E, D, A, B with HasComponent edges
C to D, E to B, D to A, A to B; E will be passed as already emitted. -/
def c1C : Node := ⟨⟨1, "i=1"⟩, 1, "C", "C", "", 0, 0, [hcRef ⟨1, "i=1"⟩ ⟨1, "i=3"⟩], []⟩

def c1E : Node := ⟨⟨1, "i=2"⟩, 1, "E", "E", "", 0, 0, [hcRef ⟨1, "i=2"⟩ ⟨1, "i=5"⟩], []⟩

def c1D : Node := ⟨⟨1, "i=3"⟩, 1, "D", "D", "", 0, 0, [hcRef ⟨1, "i=3"⟩ ⟨1, "i=4"⟩], []⟩

def c1A : Node := ⟨⟨1, "i=4"⟩, 1, "A", "A", "", 0, 0, [hcRef ⟨1, "i=4"⟩ ⟨1, "i=5"⟩], []⟩

def c1B : Node := ⟨⟨1, "i=5"⟩, 1, "B", "B", "", 0, 0, [], []⟩

def nsScenC1 : NodeSet :=
  ⟨[typeHRNode, typeHCNode, c1C, c1E, c1D, c1A, c1B], "c1", [], [],
   ["http://opcfoundation.org/UA/"]⟩

def printedScenC1 : List String := ["ns=1;i=2"]

/-- The node order `reorderNodesMinDependencies` produces on the C1
scenario (by id string). -/
def outScenC1 : List String :=
  ["i=33", "i=47", "ns=1;i=1", "ns=1;i=2", "ns=1;i=3", "ns=1;i=5", "ns=1;i=4"]

/-- C2 scenario: E (already emitted) with a HasComponent edge into X, and
a HasComponent cycle X to Y to X. -/
def c2E : Node := ⟨⟨1, "i=2"⟩, 1, "E", "E", "", 0, 0, [hcRef ⟨1, "i=2"⟩ ⟨1, "i=8"⟩], []⟩

def c2X : Node := ⟨⟨1, "i=8"⟩, 1, "X", "X", "", 0, 0, [hcRef ⟨1, "i=8"⟩ ⟨1, "i=9"⟩], []⟩

def c2Y : Node := ⟨⟨1, "i=9"⟩, 1, "Y", "Y", "", 0, 0, [hcRef ⟨1, "i=9"⟩ ⟨1, "i=8"⟩], []⟩

def nsScenC2 : NodeSet :=
  ⟨[typeHRNode, typeHCNode, c2E, c2X, c2Y], "c2", [], [],
   ["http://opcfoundation.org/UA/"]⟩

/-- C3 scenario: a NodeSet already holding a node registered under
`ns=2;i=5`, and an incoming element with local id `ns=1;i=5` whose document
maps local namespace 1 to combined namespace 2. -/
def c3P : Node := ⟨⟨2, "i=5"⟩, 1, "P", "P", "", 0, 0, [], []⟩

def nsScenC3 : NodeSet :=
  ⟨[c3P], "c3", [("ns=2;i=5", c3P)], [], ["http://opcfoundation.org/UA/"]⟩

def elemScenC3 : XmlEl := XmlEl.mk "UAObject" [("NodeId", "ns=1;i=5")] "" []

def mapScenC3 : Nat → Nat := fun n => if n = 1 then 2 else n

/-- C4 scenario: a UAObject element with two reference children, one
forward with a cleartext `ReferenceType`, one with `IsForward="False"` and
an identifier-form `ReferenceType`. -/
def nodeScenC4 : Node :=
  (Node.empty 1).parseXML (XmlEl.mk "UAObject" [("NodeId", "ns=1;i=42")] ""
    [XmlEl.mk "References" [] ""
      [XmlEl.mk "Reference" [("ReferenceType", "HasComponent")] "ns=0;i=13" [],
       XmlEl.mk "Reference" [("ReferenceType", "ns=0;i=47"), ("IsForward", "False")] "ns=0;i=14" []]])

/-- C5 scenario: the round-trip document of spec section 8 — an Aliases
element binding `Boolean = ns=0;i=1`, then a node with a reference whose
target is written as the alias string `Boolean`. -/
def aliasesElC5 : XmlEl :=
  XmlEl.mk "Aliases" [] "" [XmlEl.mk "Alias" [("Alias", "Boolean")] "ns=0;i=1" []]

def nodeElC5 : XmlEl :=
  XmlEl.mk "UAObject" [("NodeId", "ns=1;i=20")] ""
    [XmlEl.mk "References" [] ""
      [XmlEl.mk "Reference" [("ReferenceType", "HasComponent")] "Boolean" []]]

def resScenC5 : Except String NodeSet :=
  (NodeSet.init "c5").createNodes [aliasesElC5, nodeElC5] (fun n => n)

/-- C6 scenario: M holds a forward HasComponent edge to N, and N records
the corresponding inverse reference whose target field names M. -/
def c6M : Node :=
  ⟨⟨1, "i=100"⟩, 1, "M", "M", "", 0, 0,
   [⟨RefVal.nd ⟨1, "i=100"⟩, RefVal.nd ⟨0, "i=47"⟩, RefVal.nd ⟨1, "i=101"⟩, true⟩], []⟩

def c6N : Node :=
  ⟨⟨1, "i=101"⟩, 1, "N", "N", "", 0, 0, [],
   [⟨RefVal.nd ⟨1, "i=101"⟩, RefVal.nd ⟨0, "i=47"⟩, RefVal.nd ⟨1, "i=100"⟩, false⟩]⟩

def nsScenC6 : NodeSet :=
  ⟨[c6M, c6N], "c6", [("ns=1;i=100", c6M), ("ns=1;i=101", c6N)], [],
   ["http://opcfoundation.org/UA/"]⟩

/-- C7 scenario: one element with id `i=7`, created into an empty set and
then removed again. -/
def elemScenC7 : XmlEl := XmlEl.mk "UAObject" [("NodeId", "i=7")] "" []

/-- C9 scenario: a node whose References element holds two textually
identical reference children. -/
def nodeScenC9 : Node :=
  (Node.empty 1).parseXML (XmlEl.mk "UAObject" [("NodeId", "i=1")] ""
    [XmlEl.mk "References" [] ""
      [XmlEl.mk "Reference" [("ReferenceType", "ns=0;i=47")] "ns=0;i=13" [],
       XmlEl.mk "Reference" [("ReferenceType", "ns=0;i=47")] "ns=0;i=13" []]])

/-!
Claim theorems.
-/

/-- C1.  The claimed topological-order property fails on the code: in the
C1 scenario the reorder result is accepted (cycle flag false, all seven
nodes emitted), the edge from A (`ns=1;i=4`) to B (`ns=1;i=5`) is a
relevant forward edge, A is not in `alreadyEmitted`, and yet A appears
AFTER B in the output.  The cause is that the while loop of nodeset.py
lines 322-327 decrements in-degrees for edges out of already-emitted nodes
although the in-degree computation of lines 304-309 never counted them, so
B reaches zero in-degree prematurely. -/
theorem C1_reorder_not_topological :
    (nsScenC1.reorderNodesMinDependencies printedScenC1).map
        (fun p => (p.2, p.1.nodes.map (fun n => n.id.str)))
      = some (false, outScenC1)
    ∧ nsScenC1.relevantTypes.map
        (fun rel => nsScenC1.relevantForwardEdge rel c1A c1B) = some true
    ∧ printedScenC1.contains c1A.id.str = false
    ∧ pyIndex outScenC1 c1B.id.str < pyIndex outScenC1 c1A.id.str := by
  refine ⟨by decide, by decide, by decide, by decide⟩

/-- C2.  The claimed cycle handling fails on the code: the C2 scenario has
a relevant HasComponent cycle between X (`ns=1;i=8`) and Y (`ns=1;i=9`),
yet `reorderNodesMinDependencies` emits every node and reports NO error
(the cycle branch of nodeset.py lines 330-332 is not taken), because the
edge out of the already-emitted node E decrements the in-degree of X
without having been counted, which unwinds the cycle. -/
theorem C2_cycle_not_reported :
    (nsScenC2.reorderNodesMinDependencies printedScenC1).map
        (fun p => (p.2, p.1.nodes.map (fun n => n.id.str)))
      = some (false, ["i=33", "i=47", "ns=1;i=2", "ns=1;i=8", "ns=1;i=9"])
    ∧ nsScenC2.relevantTypes.map
        (fun rel => nsScenC2.relevantForwardEdge rel c2X c2Y
          && nsScenC2.relevantForwardEdge rel c2Y c2X) = some true := by
  refine ⟨by decide, by decide⟩

/-- C3.  The claimed duplicate-identity error fails on the code: in the C3
scenario the registry already holds the key `ns=2;i=5`, the incoming node
canonicalizes to exactly that identifier (its local namespace 1 maps to
combined namespace 2), and yet `createNode` succeeds — because the
duplicate test of nodeset.py line 180 runs on the PRE-remap id
`ns=1;i=5` — and the dict assignment of line 190 silently overwrites the
registered node while line 189 appends to the node list, leaving two list
nodes under one index key. -/
theorem C3_duplicate_id_silent_overwrite :
    nsScenC3.nodeids.lookup "ns=2;i=5" = some c3P
    ∧ (nsScenC3.createNode elemScenC3 mapScenC3).toOption.map
        (fun ns1 => (ns1.nodes.length, ns1.nodeids.map (fun p => p.1),
          ns1.nodeids.lookup "ns=2;i=5" == some c3P))
      = some (2, ["ns=2;i=5"], false) := by
  refine ⟨by decide, by decide⟩

/-- C4.  The claimed field mapping of `parseXMLReferences` fails on the
code: the call `Reference(self.id, target, reftype, forward)` at nodes.py
lines 117 and 119 passes `target` and `reftype` positionally into the
`referenceType` and `target` parameters of `__init__(self, source,
referenceType, target, isForward)`, so the identifier parsed from the text
content lands in `referenceType` and the `ReferenceType` attribute value
lands in `target` — swapped against the claim.  Direction handling and the
outgoing/incoming split do behave as claimed (the second child, with
`IsForward="False"`, lands in `inverseReferences` with `isForward`
false). -/
theorem C4_reference_fields_swapped :
    nodeScenC4.references
      = [⟨RefVal.nd ⟨1, "i=42"⟩, RefVal.nd ⟨0, "i=13"⟩, RefVal.lit "HasComponent", true⟩]
    ∧ nodeScenC4.inverseReferences
      = [⟨RefVal.nd ⟨1, "i=42"⟩, RefVal.nd ⟨0, "i=14"⟩, RefVal.nd ⟨0, "i=47"⟩, false⟩]
    ∧ nodeScenC4.references.map (fun r => r.target)
      ≠ [RefVal.nd (NodeId.parse "ns=0;i=13")]
    ∧ nodeScenC4.references.map (fun r => r.referenceType)
      = [RefVal.nd (NodeId.parse "ns=0;i=13")] := by
  refine ⟨by decide, by decide, by decide, by decide⟩

/-- C5.  The claimed alias round trip fails on the code: after ingesting
the document that binds `Boolean = ns=0;i=1` and a node whose reference
target is written as `Boolean`, the alias table is built and the
substitution of `replaceAliases` does run over source, target and
referenceType — but because of the swapped constructor call (see C4) the
aliased identifier sits in the `referenceType` field and ends up as
`ns=0;i=1` there, while the reference's `target` field holds the literal
`HasComponent` taken from the `ReferenceType` attribute, not `ns=0;i=1` as
claimed. -/
theorem C5_alias_roundtrip_target_wrong :
    resScenC5.toOption.map (fun ns1 => (ns1.aliases,
        ns1.nodes.map (fun n => n.references.map (fun r => (r.referenceType, r.target)))))
      = some ([("Boolean", "ns=0;i=1")],
          [[(RefVal.nd ⟨0, "i=1"⟩, RefVal.lit "HasComponent")]])
    ∧ resScenC5.toOption.map (fun ns1 =>
        ns1.nodes.map (fun n => n.references.map (fun r => r.target)))
      ≠ some [[RefVal.nd (NodeId.parse "ns=0;i=1")]] := by
  refine ⟨by decide, by decide⟩

/-- C6.  The claimed pruning fails on the code: removing N, which records
the inverse reference from M, removes N from the node list but then
executes `src.removeReferenceToNode(nd)` (nodeset.py line 201), a method no
class of the sources defines, so Python raises `AttributeError` (the `true`
flag) and M — still in the node list — keeps its outgoing reference whose
target is the removed node N: the dangling edge remains. -/
theorem C6_removal_raises_and_leaves_dangling :
    (nsScenC6.removeNodeById "ns=1;i=101").2 = true
    ∧ (nsScenC6.removeNodeById "ns=1;i=101").1.nodes = [c6M]
    ∧ c6M.references.any
        (fun r => r.target == RefVal.nd ⟨1, "i=101"⟩) = true := by
  refine ⟨by decide, by decide, by decide⟩

/-- C7.  The claimed index/list agreement fails on the code after a
create-then-remove sequence: `createNode` leaves the set in agreement, but
`removeNodeById` (nodeset.py lines 192-201) removes the node only from
`self.nodes` and never deletes its `self.nodeids` entry, returning without
error (the removed node has no inverse references) and leaving a dangling
index entry whose node is absent from the list. -/
theorem C7_index_list_disagreement :
    ((NodeSet.init "c7").createNode elemScenC7 (fun n => n)).toOption.map
        (fun ns1 => (nodesetAgrees ns1,
          (ns1.removeNodeById "i=7").2,
          nodesetAgrees (ns1.removeNodeById "i=7").1,
          (ns1.removeNodeById "i=7").1.nodes.length,
          (ns1.removeNodeById "i=7").1.nodeids.length))
      = some (true, false, false, 0, 1) := by
  decide

/-- C9.  The claimed deduplication fails on the code: `Reference` defines
`__hash__` (nodes.py line 77) but no `__eq__`, so Python-2 `sets.Set`
membership falls back to object identity and two distinct, freshly
constructed references with equal canonical string forms are BOTH kept —
parsing a References element with two identical children yields a
two-element reference set whose members have identical string forms, where
the claim (and the spec's dedup rule, `addRefDedupByStr`) would leave one
element. -/
theorem C9_reference_set_no_dedup :
    nodeScenC9.references.length = 2
    ∧ nodeScenC9.references.map Reference.pyStr
      = ["i=1--[i=13]-->i=47", "i=1--[i=13]-->i=47"]
    ∧ (nodeScenC9.references.foldl addRefDedupByStr []).length = 1 := by
  refine ⟨by decide, by decide, by decide⟩

/-- C10.  Every boolean-valued variant attribute is parsed with the idiom
`"false" not in av.lower()`: the parsed field is true iff the lowercased
attribute value does not contain the substring `"false"`; in particular
`"0"` and the empty string parse as true. -/
theorem C10_bool_attribute_parsing (f : ReferenceTypeFields) (g : MethodFields)
    (v : ViewFields) (b1 b2 : Bool) (av : String) :
    (referenceTypeParseAttrs f [("Symmetric", av)]).symmetric = pyBoolAttr av
    ∧ (referenceTypeParseAttrs f [("IsAbstract", av)]).isAbstract = pyBoolAttr av
    ∧ (methodParseAttrs g [("Executable", av)]).executable = pyBoolAttr av
    ∧ (methodParseAttrs g [("UserExecutable", av)]).userExecutable = pyBoolAttr av
    ∧ objectTypeParseAttrs b1 [("IsAbstract", av)] = pyBoolAttr av
    ∧ dataTypeParseAttrs b2 [("IsAbstract", av)] = pyBoolAttr av
    ∧ (viewParseAttrs v [("ContainsNoLoops", av)]).containsNoLoops = some (pyBoolAttr av)
    ∧ (viewParseAttrs v [("eventNotifier", av)]).eventNotifier = some (pyBoolAttr av)
    ∧ (pyBoolAttr av = true ↔ pyIn "false" (pyLower av) = false)
    ∧ pyBoolAttr "0" = true
    ∧ pyBoolAttr "" = true := by
  refine ⟨rfl, rfl, rfl, rfl, rfl, rfl, rfl, rfl, ?_, by decide, by decide⟩
  simp [pyBoolAttr]

/-- Witness for C10 at concrete field states and attribute value. -/
theorem C10_bool_attribute_parsing_witness :
    (referenceTypeParseAttrs referenceTypeInit [("Symmetric", "0")]).symmetric
      = pyBoolAttr "0" :=
  (C10_bool_attribute_parsing referenceTypeInit methodInit viewInit false false "0").1

/-!
Namespace-table stability (C8).
-/

theorem mem_addNamespaceL {t : List String} {u : String} (v : String) (h : u ∈ t) :
    u ∈ addNamespaceL t v := by
  unfold addNamespaceL
  split
  · exact h
  · exact List.mem_append_left _ h

theorem self_mem_addNamespaceL (t : List String) (v : String) :
    v ∈ addNamespaceL t v := by
  unfold addNamespaceL
  split
  · assumption
  · exact List.mem_append_right _ (List.mem_singleton.mpr rfl)

theorem pyIndex_append (t ex : List String) (u : String) (h : u ∈ t) :
    pyIndex (t ++ ex) u = pyIndex t u := by
  induction t with
  | nil => cases h
  | cons x xs ih =>
    by_cases hx : x = u
    · simp [pyIndex, hx]
    · have hu : u ∈ xs := by
        rcases List.mem_cons.mp h with h1 | h2
        · exact absurd h1.symm hx
        · exact h2
      simp [pyIndex, hx, ih hu]

theorem pyIndex_addNamespaceL (t : List String) (v u : String) (h : u ∈ t) :
    pyIndex (addNamespaceL t v) u = pyIndex t u := by
  unfold addNamespaceL
  split
  · rfl
  · exact pyIndex_append t [v] u h

theorem count_addNamespaceL (t : List String) (v u : String) (h : u ∈ t) :
    (addNamespaceL t v).count u = t.count u := by
  unfold addNamespaceL
  split
  · rfl
  · rename_i hv
    have hvu : ¬(u = v) := fun e => hv (e ▸ h)
    simp [List.count_append, List.count_singleton', hvu]

theorem mem_ingestNamespaces (t : List String) (uris : List String) (u : String)
    (h : u ∈ t) : u ∈ ingestNamespaces t uris := by
  induction uris generalizing t with
  | nil => exact h
  | cons v rest ih => exact ih _ (mem_addNamespaceL v h)

theorem pyIndex_ingestNamespaces (t uris : List String) (u : String) (h : u ∈ t) :
    pyIndex (ingestNamespaces t uris) u = pyIndex t u := by
  induction uris generalizing t with
  | nil => rfl
  | cons v rest ih =>
    exact (ih _ (mem_addNamespaceL v h)).trans (pyIndex_addNamespaceL t v u h)

theorem count_ingestNamespaces (t uris : List String) (u : String) (h : u ∈ t) :
    (ingestNamespaces t uris).count u = t.count u := by
  induction uris generalizing t with
  | nil => rfl
  | cons v rest ih =>
    exact (ih _ (mem_addNamespaceL v h)).trans (count_addNamespaceL t v u h)

theorem uris_subset_ingestNamespaces (t uris : List String) :
    ∀ u ∈ uris, u ∈ ingestNamespaces t uris := by
  induction uris generalizing t with
  | nil => intro u h; cases h
  | cons v rest ih =>
    intro u h
    rcases List.mem_cons.mp h with h1 | h2
    · exact h1 ▸ mem_ingestNamespaces _ rest v (self_mem_addNamespaceL t v)
    · exact ih _ u h2

theorem ingestNamespaces_of_subset (t1 : List String) (uris : List String)
    (h : ∀ u ∈ uris, u ∈ t1) : ingestNamespaces t1 uris = t1 := by
  induction uris with
  | nil => rfl
  | cons v rest ih =>
    have hv : v ∈ t1 := h v (List.mem_cons_self _ _)
    show ingestNamespaces (addNamespaceL t1 v) rest = t1
    rw [addNamespaceL, if_pos hv]
    exact ih (fun u hu => h u (List.mem_cons_of_mem _ hu))

theorem ingestNamespaces_idem (t uris : List String) :
    ingestNamespaces (ingestNamespaces t uris) uris = ingestNamespaces t uris :=
  ingestNamespaces_of_subset _ uris (uris_subset_ingestNamespaces t uris)

/-- C8.  Namespace indices are stable: for every state `t` of the combined
namespace table (any point in any sequence of `addNamespace` /
`addNodeSet` calls) and any document namespace list `uris`, a URI `u`
already present in the table is not re-inserted (its multiplicity is
unchanged) and keeps its `list.index` position; the namespace loop of
`addNodeSet` is idempotent, so feeding the same document's namespace list a
second time leaves the table unchanged and yields the identical
local-to-combined index mapping. -/
theorem C8_namespace_indices_stable (t uris : List String) (u : String)
    (h : u ∈ t) :
    (ingestNamespaces t uris).count u = t.count u
    ∧ pyIndex (ingestNamespaces t uris) u = pyIndex t u
    ∧ ingestNamespaces (ingestNamespaces t uris) uris = ingestNamespaces t uris
    ∧ createNamespaceMappingL (ingestNamespaces (ingestNamespaces t uris) uris) uris
        = createNamespaceMappingL (ingestNamespaces t uris) uris := by
  refine ⟨count_ingestNamespaces t uris u h, pyIndex_ingestNamespaces t uris u h,
    ingestNamespaces_idem t uris, ?_⟩
  rw [ingestNamespaces_idem t uris]

/-- Witness for C8 at a concrete table and document namespace list. -/
theorem C8_namespace_indices_stable_witness :
    "http://opcfoundation.org/UA/" ∈ ["http://opcfoundation.org/UA/"]
    ∧ ((ingestNamespaces ["http://opcfoundation.org/UA/"]
          ["http://opcfoundation.org/UA/", "urn:a"]).count "http://opcfoundation.org/UA/"
        = ["http://opcfoundation.org/UA/"].count "http://opcfoundation.org/UA/"
      ∧ pyIndex (ingestNamespaces ["http://opcfoundation.org/UA/"]
          ["http://opcfoundation.org/UA/", "urn:a"]) "http://opcfoundation.org/UA/"
        = pyIndex ["http://opcfoundation.org/UA/"] "http://opcfoundation.org/UA/"
      ∧ ingestNamespaces (ingestNamespaces ["http://opcfoundation.org/UA/"]
            ["http://opcfoundation.org/UA/", "urn:a"])
          ["http://opcfoundation.org/UA/", "urn:a"]
        = ingestNamespaces ["http://opcfoundation.org/UA/"]
            ["http://opcfoundation.org/UA/", "urn:a"]
      ∧ createNamespaceMappingL
            (ingestNamespaces (ingestNamespaces ["http://opcfoundation.org/UA/"]
                ["http://opcfoundation.org/UA/", "urn:a"])
              ["http://opcfoundation.org/UA/", "urn:a"])
            ["http://opcfoundation.org/UA/", "urn:a"]
        = createNamespaceMappingL
            (ingestNamespaces ["http://opcfoundation.org/UA/"]
              ["http://opcfoundation.org/UA/", "urn:a"])
            ["http://opcfoundation.org/UA/", "urn:a"]) :=
  ⟨by decide,
   C8_namespace_indices_stable ["http://opcfoundation.org/UA/"]
     ["http://opcfoundation.org/UA/", "urn:a"] "http://opcfoundation.org/UA/"
     (by decide)⟩

end PyUA
